import Mathlib

/-!
Verification development for the `simpleserve` crate (a small multi-threaded
webserver).  The definitions below are a shallow embedding of the Rust source
files `src/lib.rs`, `src/server.rs`, `src/utils.rs` and `src/errors.rs`:
pure functions become Lean functions, fallible operations return `Except`,
runtime panics are modelled as an explicit `RtPanic` error value, and the
ambient filesystem is an explicit `FileSystem` record of partial lookup
functions.  Strings are modelled with Lean `String`/`List Char`; the request
paths the claims exercise are ASCII, and bytes decoded from percent escapes
are modelled as single code points (the UTF-8 re-validation performed by
`urlencoding::decode` on multi-byte sequences is outside the scope of every
claim under study and is not modelled).
-/

deriving instance DecidableEq for Except

/-- A runtime panic, carrying its message.  Rust panics abort the worker
thread that hit them; computations that can panic return
`Except RtPanic α` here. -/
structure RtPanic where
  msg : String
deriving DecidableEq

/-- An unspecified I/O error (`std::io::Error`).  The source never inspects
the error's kind, so a single constructor suffices. -/
inductive IoError where
  | ioError
deriving DecidableEq

/-- Embeds `get_mime_type` (src/utils.rs lines 30-42): the static
extension-to-content-type table. -/
def get_mime_type (extension : String) : String :=
  match extension with
  | "html" => "text/html"
  | "css" => "text/css"
  | "js" => "application/javascript"
  | "json" => "application/json"
  | "png" => "image/png"
  | "jpg" => "image/jpeg"
  | "jpeg" => "image/jpeg"
  | "gif" => "image/gif"
  | "svg" => "image/svg+xml"
  | _ => "application/octet-stream"

/-- True when `c` is an ASCII hexadecimal digit. -/
def isHexDigit (c : Char) : Bool :=
  (decide ('0' ≤ c) && decide (c ≤ '9')) ||
  (decide ('a' ≤ c) && decide (c ≤ 'f')) ||
  (decide ('A' ≤ c) && decide (c ≤ 'F'))

/-- Numeric value of an ASCII hexadecimal digit. -/
def hexVal (c : Char) : Nat :=
  if decide ('0' ≤ c) && decide (c ≤ '9') then c.toNat - '0'.toNat
  else if decide ('a' ≤ c) && decide (c ≤ 'f') then c.toNat - 'a'.toNat + 10
  else c.toNat - 'A'.toNat + 10

/-- Embeds the percent-decoding performed by `urlencoding::decode`
(src/utils.rs line 74): each `%` followed by two hexadecimal digits becomes
the denoted byte; a `%` not followed by two hexadecimal digits is passed
through literally and scanning resumes at the character after the `%`. -/
def percentDecode : List Char → List Char
  | '%' :: a :: b :: rest =>
    if isHexDigit a && isHexDigit b then
      Char.ofNat (16 * hexVal a + hexVal b) :: percentDecode rest
    else
      '%' :: percentDecode (a :: b :: rest)
  | c :: rest => c :: percentDecode rest
  | [] => []

/-- Embeds `Regex::new(r"/\.\./")?.replace_all(route, "/")`
(src/utils.rs line 76): a single left-to-right scan replacing each leftmost,
non-overlapping occurrence of the four characters `/../` by `/`.  When the
first four characters do not form `/../` the scan advances by one
character. -/
def replaceDotDot : List Char → List Char
  | c :: d :: e :: f :: rest =>
    if c = '/' ∧ d = '.' ∧ e = '.' ∧ f = '/' then
      '/' :: replaceDotDot rest
    else
      c :: replaceDotDot (d :: e :: f :: rest)
  | c :: rest => c :: replaceDotDot rest
  | [] => []

/-- True when the list contains an occurrence of the four characters
`/../`. -/
def containsDotDot : List Char → Bool
  | c :: d :: e :: f :: rest =>
    decide (c = '/' ∧ d = '.' ∧ e = '.' ∧ f = '/') ||
      containsDotDot (d :: e :: f :: rest)
  | _ => false

/-- Embeds `Regex::new(r"\?[^ ]+")?.replace(route, "")`
(src/utils.rs line 78): the first occurrence of a `?` followed by at least
one non-space character is removed together with the maximal run of
non-space characters after it; a `?` at the end of the token, or followed by
a space, does not match. -/
def stripQuery : List Char → List Char
  | '?' :: c :: rest =>
    if c = ' ' then '?' :: stripQuery (c :: rest)
    else (c :: rest).dropWhile (fun x => x != ' ')
  | c :: rest => c :: stripQuery rest
  | [] => []

/-- Embeds the three-step sanitization of the raw path token
(src/utils.rs lines 73-78, identically lines 115-119): percent-decode, then
replace `/../` occurrences, then strip the query string. -/
def sanitizeRoute (s : String) : String :=
  ⟨stripQuery (replaceDotDot (percentDecode s.data))⟩

/-- Helper for `splitWhitespace`: scans the characters, accumulating the
current fragment in reverse. -/
def splitWhitespaceAux : List Char → List Char → List String
  | [], acc => if acc.isEmpty then [] else [⟨acc.reverse⟩]
  | c :: rest, acc =>
    if c.isWhitespace then
      if acc.isEmpty then splitWhitespaceAux rest []
      else (⟨acc.reverse⟩ : String) :: splitWhitespaceAux rest []
    else splitWhitespaceAux rest (c :: acc)

/-- Embeds Rust's `str::split_whitespace`: split on whitespace runs and
discard empty fragments. -/
def splitWhitespace (s : String) : List String :=
  splitWhitespaceAux s.data []

/-- Embeds `struct Page` (src/server.rs lines 390-393): an in-memory text
response. -/
structure Page where
  status : Nat
  content : String
deriving DecidableEq

/-- Embeds `Page::new` (src/server.rs lines 396-401). -/
def Page.new (status : Nat) (content : String) : Page :=
  ⟨status, content⟩

/-- Embeds `impl Sendable for Page`, `render` (src/server.rs lines 404-408).
`self.content.len()` is the UTF-8 byte length of the body. -/
def Page.render (p : Page) : String :=
  "HTTP/1.1 " ++ toString p.status ++ " OK\r\nContent-Length: " ++
    toString p.content.utf8ByteSize ++ "\r\n\r\n" ++ p.content

/-- Embeds `struct Bytes` (src/server.rs lines 451-456): a file-contents
response tagged with the canonicalized path and the file extension.  File
bytes are modelled as `List Nat`. -/
structure Bytes where
  status : Nat
  content : List Nat
  file_location : String
  file_type : String
deriving DecidableEq

/-- Embeds `Bytes::render` (src/server.rs lines 483-490): the preamble names
the looked-up mime type and the byte count; the body bytes are streamed
separately by `send`. -/
def Bytes.render (b : Bytes) : String :=
  "HTTP/1.1 " ++ toString b.status ++ " OK\r\nContent-Type: " ++
    get_mime_type b.file_type ++ "\r\nContent-Length: " ++
    toString b.content.length ++ "\r\n\r\n"

/-- The wire-format response preamble as the specification words it:
`HTTP/1.1 <code> OK`, the reason phrase being the literal `OK` regardless of
the code.  Written from the specification, for comparison with the renders
embedded from the source. -/
def statusLineSpec (code : Nat) : String :=
  "HTTP/1.1 " ++ toString code ++ " OK"

/-- Carriage-return line-feed. -/
def CRLF : String := "\r\n"

/-- The specification's wire format for a text page: status line, a
`Content-Length` header carrying the body's byte length, a blank line, the
body.  Written from the specification, for comparison with `Page.render`. -/
def pageRenderSpec (code : Nat) (body : String) : String :=
  statusLineSpec code ++ CRLF ++
    "Content-Length: " ++ toString body.utf8ByteSize ++ CRLF ++ CRLF ++ body

/-- The specification's wire format for a file-bytes preamble: status line,
a `Content-Type` header carrying the mime type of the extension, a
`Content-Length` header carrying the byte count, a blank line.  Written from
the specification, for comparison with `Bytes.render`. -/
def bytesRenderSpec (code : Nat) (extension : String) (bytes : List Nat) : String :=
  statusLineSpec code ++ CRLF ++
    "Content-Type: " ++ get_mime_type extension ++ CRLF ++
    "Content-Length: " ++ toString bytes.length ++ CRLF ++ CRLF

/-- A response value: what a boxed `dyn Sendable` holds at runtime — either
a `Page` or a `Bytes` (the two implementors in the crate). -/
inductive Resp where
  | page (p : Page)
  | bytes (b : Bytes)
deriving DecidableEq

/-- The ambient filesystem, as the partial functions the source consults:
`canonicalize` resolves a path to its canonical absolute form
(`Path::canonicalize`), `readBytes` opens a file by the path as given and
returns its bytes (`File::open` + `read_to_end`), `readToString` reads a
file as text (`fs::read_to_string`).  `none` models the corresponding
`std::io::Error`. -/
structure FileSystem where
  canonicalize : String → Option String
  readBytes : String → Option (List Nat)
  readToString : String → Option String

/-- Splits a character list on a separator character; the fragments between
separators, in order (an empty list yields one empty fragment). -/
def splitOnChar (sep : Char) : List Char → List (List Char)
  | [] => [[]]
  | c :: rest =>
    if c = sep then [] :: splitOnChar sep rest
    else
      match splitOnChar sep rest with
      | [] => [[c]]
      | g :: gs => (c :: g) :: gs

/-- Embeds `Path::extension` on a canonical path string: the portion of the
final path component after its last `.`, absent when the component has no
`.` or only a leading one. -/
def pathExtension (p : String) : Option String :=
  let parts := splitOnChar '.' ((splitOnChar '/' p.data).getLastD [])
  match parts with
  | [] => none
  | [_] => none
  | [[], _] => none
  | _ => some ⟨parts.getLastD []⟩

/-- Embeds `Bytes::new` (src/server.rs lines 459-474): canonicalize the
path, open and read the file by the path as given, and tag the result with
the canonical location and its extension (empty string when absent). -/
def Bytes.new (fs : FileSystem) (status : Nat) (path : String) : Except IoError Bytes :=
  match fs.canonicalize path with
  | none => .error .ioError
  | some canonical_path =>
    match fs.readBytes path with
    | none => .error .ioError
    | some content =>
      .ok { status := status, content := content,
            file_location := canonical_path,
            file_type := (pathExtension canonical_path).getD "" }

/-- Embeds `enum ConnectionType` (src/server.rs lines 530-534). -/
inductive ConnectionType where
  | Http
  | Https
deriving DecidableEq

/-- A chunk written to a socket: either a rendered preamble string or raw
file bytes (the two `write_all` call shapes in the crate). -/
inductive Chunk where
  | str (s : String)
  | raw (b : List Nat)
deriving DecidableEq

/-- A socket (`TcpStream` or `SslStream<TcpStream>`) modelled by what this
program observes of it: the first line `BufReader::lines().next_line` yields
(`none` = read I/O error, `some none` = stream exhausted with no line,
`some (some l)` = the request line), the chunks written so far, and whether
writes and flushes succeed. -/
structure StreamModel where
  firstLine : Option (Option String)
  written : List Chunk
  writeOk : Bool
  flushOk : Bool
deriving DecidableEq

/-- Embeds `struct ConnectionInfo` (src/server.rs lines 536-541): a tagged
transport wrapper holding at most one of a plaintext and an encrypted
stream. -/
structure ConnectionInfo where
  connection_type : ConnectionType
  ssl_stream : Option StreamModel
  stream : Option StreamModel
deriving DecidableEq

/-- Embeds `ConnectionInfo::new` (src/server.rs lines 544-550): a plaintext
connection; the encrypted slot stays empty. -/
def ConnectionInfo.new (s : StreamModel) : ConnectionInfo :=
  { connection_type := .Http, ssl_stream := none, stream := some s }

/-- Embeds `ConnectionInfo::new_ssl` (src/server.rs lines 552-558): an
encrypted connection; the plaintext slot stays empty. -/
def ConnectionInfo.new_ssl (s : StreamModel) : ConnectionInfo :=
  { connection_type := .Https, ssl_stream := some s, stream := none }

/-- Embeds `struct RequestInfo` (src/server.rs lines 508-512): the read-only
view handed to a handler. -/
structure RequestInfo where
  conn : ConnectionInfo
  route : String
  blacklisted_paths : List String
deriving DecidableEq

/-- Embeds `RequestInfo::new` (src/server.rs lines 514-522). -/
def RequestInfo.new (conn : ConnectionInfo) (route : String)
    (blacklisted_paths : List String) : RequestInfo :=
  { conn := conn, route := route, blacklisted_paths := blacklisted_paths }

/-- Embeds `type HandlerFunction` (src/server.rs line 104).  A handler may
panic (the built-in file handler unwraps), so its result is an `Except`. -/
def HandlerFunction : Type :=
  RequestInfo → Except RtPanic Resp

/-- Embeds `struct Handler` (src/server.rs lines 340-344): one route
binding. -/
structure Handler where
  route : String
  handler : HandlerFunction

/-- Embeds `Handler::new` (src/server.rs lines 346-352). -/
def Handler.new (route : String) (handler : HandlerFunction) : Handler :=
  { route := route, handler := handler }

/-- Embeds the Rust byte-slice `&s[1..]`: drops the first byte, panicking
when the string is empty ("byte index 1 is out of bounds") or when its
first character occupies more than one byte ("byte index 1 is not a char
boundary"). -/
def sliceFromByte1 (s : String) : Except RtPanic String :=
  match s.data with
  | [] => .error ⟨"byte index 1 is out of bounds"⟩
  | c :: rest =>
    if c.toNat ≤ 127 then .ok ⟨rest⟩
    else .error ⟨"byte index 1 is not a char boundary"⟩

/-- Embeds `handle_http_file` (src/utils.rs lines 151-153):
`Bytes::new(200, &request.route[1..]).unwrap()` — the `unwrap` turns any
open failure into a panic. -/
def handle_http_file (fs : FileSystem) (request : RequestInfo) : Except RtPanic Resp :=
  match sliceFromByte1 request.route with
  | .error p => .error p
  | .ok rel =>
    match Bytes.new fs 200 rel with
    | .ok b => .ok (.bytes b)
    | .error _ => .error ⟨"called Result unwrap on an Err value"⟩

/-- Embeds `handle_https_file` (src/utils.rs lines 155-157): as the http
variant but on the full route (no leading-byte slice). -/
def handle_https_file (fs : FileSystem) (request : RequestInfo) : Except RtPanic Resp :=
  match Bytes.new fs 200 request.route with
  | .ok b => .ok (.bytes b)
  | .error _ => .error ⟨"called Result unwrap on an Err value"⟩

/-- Embeds `base_file_handler` (src/utils.rs lines 139-149): dispatch on
the connection kind; no blacklist consultation appears on either branch. -/
def base_file_handler (fs : FileSystem) (request : RequestInfo) : Except RtPanic Resp :=
  match request.conn.connection_type with
  | .Http => handle_http_file fs request
  | .Https => handle_https_file fs request

/-- Embeds `base_not_found_handler` (src/utils.rs lines 159-173): try to
open the file named by the route without its first byte; on success compare
the canonical location against every blacklist entry, answering a 403 page
on a match and the file bytes otherwise; on failure answer a 404 page whose
body is read from `404.html` (itself unwrapped, hence a panic when that
file is unreadable). -/
def base_not_found_handler (fs : FileSystem) (request : RequestInfo) : Except RtPanic Resp :=
  match sliceFromByte1 request.route with
  | .error p => .error p
  | .ok rel =>
    match Bytes.new fs 200 rel with
    | .ok b =>
      if b.file_location ∈ request.blacklisted_paths then
        .ok (.page (Page.new 403 "Forbidden"))
      else
        .ok (.bytes b)
    | .error _ =>
      match fs.readToString "404.html" with
      | some content => .ok (.page (Page.new 404 content))
      | none => .error ⟨"called Result unwrap on an Err value"⟩

/-- Embeds the route-scanning loop shared by both connection handlers
(src/utils.rs lines 82-90): `response` starts as a 404 page, an exact route
match invokes that binding's handler and stops, a binding whose route is
the literal `"404"` invokes its handler and stores the answer without
stopping.  A panic inside an invoked handler aborts the scan. -/
def dispatchLoop (route : String) (req : RequestInfo) :
    List Handler → Except RtPanic Resp → Except RtPanic Resp
  | [], response => response
  | h :: rest, response =>
    if h.route = route then h.handler req
    else if h.route = "404" then
      match h.handler req with
      | .ok r => dispatchLoop route req rest (.ok r)
      | .error p => .error p
    else dispatchLoop route req rest response

/-- The route-scanning loop started on its initial `response` value,
`Page::new(404, "Not found")` (src/utils.rs line 82). -/
def dispatchRoutes (routes : List Handler) (route : String) (req : RequestInfo) :
    Except RtPanic Resp :=
  dispatchLoop route req routes (.ok (.page (Page.new 404 "Not found")))

/-- The chunks a response's `send` writes: a page writes its rendered
string (src/server.rs lines 85-97); bytes write the rendered preamble and
then the raw contents (src/server.rs lines 492-505). -/
def sendChunks : Resp → List Chunk
  | .page p => [.str p.render]
  | .bytes b => [.str b.render, .raw b.content]

/-- Failure of a `send`: a panic from a mismatched transport accessor, or a
write I/O error. -/
inductive SendErr where
  | panicked (msg : String)
  | ioError
deriving DecidableEq

/-- Embeds `Sendable::send` (src/server.rs lines 85-97 and 492-505): pick
the stream matching the connection kind (the accessor panics when that slot
is empty) and write the response's chunks to it. -/
def sendResp (r : Resp) (conn : ConnectionInfo) : Except SendErr ConnectionInfo :=
  match conn.connection_type with
  | .Http =>
    match conn.stream with
    | none => .error (.panicked "Connection is not HTTP")
    | some s =>
      if s.writeOk then
        .ok { conn with stream := some { s with written := s.written ++ sendChunks r } }
      else .error .ioError
  | .Https =>
    match conn.ssl_stream with
    | none => .error (.panicked "Connection is not HTTPS")
    | some s =>
      if s.writeOk then
        .ok { conn with ssl_stream := some { s with written := s.written ++ sendChunks r } }
      else .error .ioError

/-- The recoverable error conditions a connection handler returns
(src/utils.rs lines 56-95): an I/O failure propagated by `?`, or the
`OptionUnwrapError` raised for a missing request line or missing path
token (src/errors.rs). -/
inductive ConnErr where
  | ioError
  | optionUnwrap
deriving DecidableEq

/-- Outcome of handling one connection: normal completion with the final
connection state, a returned recoverable error, or a panic. -/
inductive ConnResult where
  | ok (conn : ConnectionInfo)
  | err (e : ConnErr)
  | panicked (msg : String)
deriving DecidableEq

/-- Embeds `handle_http_connection` (src/utils.rs lines 56-95): read the
request line from the plaintext stream, extract the second
whitespace-delimited token, sanitize it, resolve and invoke a handler via
the scan loop, send the response, and flush the plaintext stream. -/
def handle_http_connection (routes : List Handler) (blacklisted_paths : List String)
    (conn : ConnectionInfo) : ConnResult :=
  match conn.stream with
  | none => .panicked "Connection is not HTTP"
  | some s =>
    match s.firstLine with
    | none => .err .ioError
    | some none => .err .optionUnwrap
    | some (some request_line) =>
      match (splitWhitespace request_line).get? 1 with
      | none => .err .optionUnwrap
      | some raw =>
        let route := sanitizeRoute raw
        match dispatchRoutes routes route (RequestInfo.new conn route blacklisted_paths) with
        | .error p => .panicked p.msg
        | .ok response =>
          match sendResp response conn with
          | .error (.panicked m) => .panicked m
          | .error .ioError => .err .ioError
          | .ok conn' =>
            match conn'.stream with
            | none => .panicked "Connection is not HTTP"
            | some s' => if s'.flushOk then .ok conn' else .err .ioError

/-- Embeds `handle_https_connection` (src/utils.rs lines 97-137): as the
http variant but reading from and sending to the encrypted stream.  The
final flush (src/utils.rs line 134) nevertheless goes through
`conn.stream()`, the plaintext accessor. -/
def handle_https_connection (routes : List Handler) (blacklisted_paths : List String)
    (conn : ConnectionInfo) : ConnResult :=
  match conn.ssl_stream with
  | none => .panicked "Connection is not HTTPS"
  | some s =>
    match s.firstLine with
    | none => .err .ioError
    | some none => .err .optionUnwrap
    | some (some request_line) =>
      match (splitWhitespace request_line).get? 1 with
      | none => .err .optionUnwrap
      | some raw =>
        let route := sanitizeRoute raw
        match dispatchRoutes routes route (RequestInfo.new conn route blacklisted_paths) with
        | .error p => .panicked p.msg
        | .ok response =>
          match sendResp response conn with
          | .error (.panicked m) => .panicked m
          | .error .ioError => .err .ioError
          | .ok conn' =>
            match conn'.stream with
            | none => .panicked "Connection is not HTTP"
            | some s' => if s'.flushOk then .ok conn' else .err .ioError

/-- Embeds `handle_connection` (src/utils.rs lines 44-54): dispatch on the
connection kind. -/
def handle_connection (routes : List Handler) (blacklisted_paths : List String)
    (conn : ConnectionInfo) : ConnResult :=
  match conn.connection_type with
  | .Http => handle_http_connection routes blacklisted_paths conn
  | .Https => handle_https_connection routes blacklisted_paths conn

/-- What a pooled job does when run: completes normally or panics. -/
inductive JobOutcome where
  | completed
  | panicked
deriving DecidableEq

/-- Embeds the dispatch-job closure submitted per accepted connection
(src/server.rs lines 271-276): `rt.block_on(handle_connection(..)).unwrap()`.
A returned `Err` is unwrapped into a panic, and a panic inside the handler
propagates; only an `Ok` completes the job normally.  (`Runtime::new`'s own
unwrap is assumed to succeed.) -/
def connectionJob (routes : List Handler) (blacklisted_paths : List String)
    (conn : ConnectionInfo) : JobOutcome :=
  match handle_connection routes blacklisted_paths conn with
  | .ok _ => .completed
  | .err _ => .panicked
  | .panicked _ => .panicked

/-- What becomes of one worker given the jobs it dequeues, in order. -/
structure WorkerResult where
  completedJobs : Nat
  aliveAtClosure : Bool
deriving DecidableEq

/-- Embeds the worker loop of `Worker::new` (src/lib.rs lines 130-148):
dequeue and run jobs until the queue closes; a panicking job unwinds out of
the loop and terminates the worker thread, so no later job is run by it and
it never observes queue closure. -/
def workerRun : List JobOutcome → WorkerResult
  | [] => { completedJobs := 0, aliveAtClosure := true }
  | .completed :: rest =>
    let r := workerRun rest
    { r with completedJobs := r.completedJobs + 1 }
  | .panicked :: _ => { completedJobs := 0, aliveAtClosure := false }

/-- Embeds `struct ThreadPool` (src/lib.rs lines 54-57): the worker count
and the producer side of the shared queue (`none` once dropped by `stop`),
plus the jobs enqueued so far. -/
structure ThreadPool where
  workers : Nat
  sender : Option Unit
  pending : List JobOutcome

/-- Embeds `ThreadPool::new` (src/lib.rs lines 69-86): asserts the size is
nonzero, then creates the workers and an open queue. -/
def ThreadPool.new (size : Nat) : Except RtPanic ThreadPool :=
  if size = 0 then .error ⟨"assertion failed: size > 0"⟩
  else .ok { workers := size, sender := some (), pending := [] }

/-- Embeds `ThreadPool::execute` (src/lib.rs lines 95-106):
`self.sender.as_ref().expect(..).send(job).expect(..)` — once the sender
has been dropped the first `expect` panics; otherwise the job is
enqueued. -/
def ThreadPool.execute (p : ThreadPool) (job : JobOutcome) : Except RtPanic ThreadPool :=
  match p.sender with
  | none => .error ⟨"Failed to get reference to sender"⟩
  | some _ => .ok { p with pending := p.pending ++ [job] }

/-- Embeds `ThreadPool::stop` (src/lib.rs lines 108-111):
`drop(self.sender.take())` — a pure state update closing the queue to new
submissions; the blocking joins live in `Drop`, not here. -/
def ThreadPool.stop (p : ThreadPool) : ThreadPool :=
  { p with sender := none }

/-- Embeds `struct Webserver` (src/server.rs lines 120-126).  The shutdown
receiver is opaque here. -/
structure Webserver where
  routes : List Handler
  thread_pool : ThreadPool
  blacklisted_paths : List String
  connection_type : Option ConnectionType
  receiver : Option Unit

/-- Embeds `Webserver::new` (src/server.rs lines 135-143): the route table
starts as the single reserved binding `Handler::new("404",
base_not_found_handler)`; the pool's size assertion can panic.  The
filesystem the built-in handler will consult is passed explicitly. -/
def Webserver.new (fs : FileSystem) (thread_amount : Nat)
    (blacklisted_paths : List String) : Except RtPanic Webserver :=
  match ThreadPool.new thread_amount with
  | .error p => .error p
  | .ok pool =>
    .ok { routes := [Handler.new "404" (base_not_found_handler fs)],
          thread_pool := pool,
          blacklisted_paths := blacklisted_paths,
          connection_type := none,
          receiver := none }

/-- Embeds `Webserver::set_404_callback` (src/server.rs lines 158-160):
`self.routes[0] = Handler::new("404", callback)` — indexing an empty table
would panic. -/
def Webserver.set_404_callback (ws : Webserver) (callback : HandlerFunction) :
    Except RtPanic Webserver :=
  match ws.routes with
  | [] => .error ⟨"index out of bounds"⟩
  | _ :: rest => .ok { ws with routes := Handler.new "404" callback :: rest }

/-- Embeds `Webserver::add_route` (src/server.rs lines 197-208): an empty
route panics, a route equal to any existing binding's route panics, and
otherwise the new binding is pushed at the end. -/
def Webserver.add_route (ws : Webserver) (route : String) (handler : HandlerFunction) :
    Except RtPanic Webserver :=
  if route = "" then .error ⟨"Route cannot be empty"⟩
  else if ws.routes.any (fun rh => rh.route == route) then .error ⟨"Route already exists"⟩
  else .ok { ws with routes := ws.routes ++ [Handler.new route handler] }

/-- Outcome of one registration operation: success, a returned I/O error
(the mutations made before the failing path are kept, as the Rust method
takes `&mut self`), or a panic (the process aborts). -/
inductive OpResult where
  | ok (ws : Webserver)
  | ioError (ws : Webserver)
  | panicked (msg : String)

/-- Embeds `Webserver::add_accessible_files` (src/server.rs lines 210-218):
for each path, eagerly canonicalize it (an unresolvable path returns the
I/O error through `?`, keeping earlier additions), then bind the route
`"/" + path` to `base_file_handler`. -/
def Webserver.add_accessible_files (fs : FileSystem) (ws : Webserver) :
    List String → OpResult
  | [] => .ok ws
  | p :: rest =>
    match fs.canonicalize p with
    | none => .ioError ws
    | some _ =>
      match ws.add_route ("/" ++ p) (base_file_handler fs) with
      | .error pan => .panicked pan.msg
      | .ok ws' => Webserver.add_accessible_files fs ws' rest

/-- One registration operation on a webserver. -/
inductive ServerOp where
  | addRoute (route : String) (handler : HandlerFunction)
  | addFiles (paths : List String)
  | set404 (handler : HandlerFunction)

/-- Applies one registration operation. -/
def Webserver.applyOp (fs : FileSystem) (ws : Webserver) : ServerOp → OpResult
  | .addRoute route handler =>
    match ws.add_route route handler with
    | .ok ws' => .ok ws'
    | .error p => .panicked p.msg
  | .addFiles paths => ws.add_accessible_files fs paths
  | .set404 handler =>
    match ws.set_404_callback handler with
    | .ok ws' => .ok ws'
    | .error p => .panicked p.msg

/-- Applies a sequence of registration operations, continuing past returned
(recoverable) I/O errors and stopping at a panic. -/
def Webserver.runOps (fs : FileSystem) (ws : Webserver) : List ServerOp → OpResult
  | [] => .ok ws
  | op :: rest =>
    match ws.applyOp fs op with
    | .ok ws' => Webserver.runOps fs ws' rest
    | .ioError ws' => Webserver.runOps fs ws' rest
    | .panicked m => .panicked m

/-- The webserver state an operation outcome leaves behind, when the
process survived it. -/
def OpResult.state : OpResult → Option Webserver
  | .ok ws => some ws
  | .ioError ws => some ws
  | .panicked _ => none

/-- The reserved-binding invariant: the route table is nonempty, its head
is the binding with route token `"404"`, and no other binding carries that
token. -/
def inv404 (ws : Webserver) : Bool :=
  match ws.routes with
  | [] => false
  | h :: t => h.route == "404" && t.all (fun h' => h'.route != "404")

/-- A fixed healthy plaintext socket, used to build concrete requests. -/
def streamStub : StreamModel :=
  { firstLine := some (some "GET / HTTP/1.1"), written := [], writeOk := true, flushOk := true }

/-- A fixed plaintext connection over `streamStub`. -/
def connStub : ConnectionInfo := ConnectionInfo.new streamStub

/-- A plaintext connection whose stream yields no request line at all
(for example, the peer closed the socket immediately). -/
def connNoLine : ConnectionInfo :=
  ConnectionInfo.new { firstLine := some none, written := [], writeOk := true, flushOk := true }

/-- A fixed healthy encrypted socket carrying one well-formed request. -/
def sslStreamStub : StreamModel :=
  { firstLine := some (some "GET / HTTP/1.1"), written := [], writeOk := true, flushOk := true }

/-- A filesystem exposing one readable file, `secret.txt`, whose canonical
location is `/srv/secret.txt`. -/
def fsSecret : FileSystem :=
  { canonicalize := fun p => if p = "secret.txt" then some "/srv/secret.txt" else none,
    readBytes := fun p => if p = "secret.txt" then some [115, 51] else none,
    readToString := fun _ => none }

/-- A request for `/secret.txt` whose blacklist holds exactly that file's
canonical path. -/
def reqSecret : RequestInfo :=
  RequestInfo.new connStub "/secret.txt" ["/srv/secret.txt"]

/-- A filesystem on which no file resolves, but `404.html` is readable. -/
def fsNothing : FileSystem :=
  { canonicalize := fun _ => none,
    readBytes := fun _ => none,
    readToString := fun p => if p = "404.html" then some "custom 404 body" else none }

/-- A request for a path that resolves to no file. -/
def reqMissing : RequestInfo :=
  RequestInfo.new connStub "/missing.txt" []

/-- A trivial always-200 handler used for concrete witnesses. -/
def handlerStub : HandlerFunction := fun _ => .ok (.page (Page.new 200 "ok"))

/-- A webserver state holding only the reserved binding, used for concrete
witnesses. -/
def wsStub : Webserver :=
  { routes := [Handler.new "404" handlerStub],
    thread_pool := { workers := 1, sender := some (), pending := [] },
    blacklisted_paths := [], connection_type := none, receiver := none }

/-- `wsStub` after one successful registration of "/". -/
def wsStub2 : Webserver :=
  { wsStub with routes := wsStub.routes ++ [Handler.new "/" handlerStub] }

/-- A request for "/x" over the stub connection. -/
def reqRouteX : RequestInfo := RequestInfo.new connStub "/x" []

/-- A reserved binding answering a fixed 404 page. -/
def h404Stub : Handler := Handler.new "404" (fun _ => .ok (.page (Page.new 404 "nf")))

/-- A binding for "/x" answering a fixed 200 page. -/
def hRouteX : Handler := Handler.new "/x" (fun _ => .ok (.page (Page.new 200 "hi")))

/-- A replacement not-found handler used for concrete witnesses. -/
def hNfStub : HandlerFunction := fun _ => .ok (.page (Page.new 404 "custom"))

/-- A filesystem resolving exactly the file `a.txt`. -/
def fsAtxt : FileSystem :=
  { canonicalize := fun p => if p = "a.txt" then some "/abs/a.txt" else none,
    readBytes := fun _ => none, readToString := fun _ => none }

/-- The state Webserver::new builds over `fsAtxt` with two workers. -/
def wsInit : Webserver :=
  { routes := [Handler.new "404" (base_not_found_handler fsAtxt)],
    thread_pool := { workers := 2, sender := some (), pending := [] },
    blacklisted_paths := [], connection_type := none, receiver := none }

/-- A concrete operation sequence: one route, a 404 replacement, one
accessible file. -/
def opsStub : List ServerOp :=
  [.addRoute "/" handlerStub, .set404 hNfStub, .addFiles ["a.txt"]]

/-- The state reached by running `opsStub` from `wsInit`. -/
def wsFinal : Webserver :=
  { routes := [Handler.new "404" hNfStub, Handler.new "/" handlerStub,
               Handler.new "/a.txt" (base_file_handler fsAtxt)],
    thread_pool := { workers := 2, sender := some (), pending := [] },
    blacklisted_paths := [], connection_type := none, receiver := none }

example : sanitizeRoute "/a/../b" = "/a/b" := by decide
example : sanitizeRoute "/../../" = "/../" := by decide
example : sanitizeRoute "/x?q=1" = "/x" := by decide
example : sanitizeRoute "/%41" = "/A" := by decide
example : splitWhitespace "GET /x HTTP/1.1" = ["GET", "/x", "HTTP/1.1"] := by decide
example : pathExtension "/srv/secret.txt" = some "txt" := by decide
example : pathExtension "/srv/noext" = none := by decide
example : pathExtension "/srv/.hidden" = none := by decide
example : pathExtension "/srv/a.tar.gz" = some "gz" := by decide


/-- Claim C8: for every Page with status code c and body b, render returns
exactly "HTTP/1.1 c OK", CRLF, a Content-Length header carrying the byte
length of b, a blank line and the body; for every Bytes with status c,
extension e and contents v, render returns exactly the status line, a
Content-Type header carrying the mime type of e, a Content-Length header
carrying the length of v and a blank line; in both the reason phrase is the
literal "OK" regardless of c. -/
theorem render_matches_wire_format :
    ∀ (c : Nat) (b : String) (v : List Nat) (loc e : String),
      Page.render (Page.new c b) = pageRenderSpec c b ∧
      Bytes.render { status := c, content := v, file_location := loc, file_type := e } =
        bytesRenderSpec c e v := by
  intro c b v loc e
  constructor
  · apply String.ext
    simp [Page.render, Page.new, pageRenderSpec, statusLineSpec, CRLF,
      String.data_append, List.append_assoc]
  · apply String.ext
    simp [Bytes.render, bytesRenderSpec, statusLineSpec, CRLF,
      String.data_append, List.append_assoc]

/-- Claim C10: submitting a job after stop fails fatally; stop is a pure
state update closing the queue (no blocking join happens in it), and a
submission on an open queue is enqueued rather than dropped. -/
theorem execute_after_stop_panics :
    ∀ (p : ThreadPool) (job : JobOutcome),
      (p.stop).execute job = .error ⟨"Failed to get reference to sender"⟩ ∧
      (p.stop).sender = none ∧ (p.stop).pending = p.pending ∧
      ∀ (w : Nat) (pend : List JobOutcome) (j : JobOutcome),
        (ThreadPool.mk w (some ()) pend).execute j =
          .ok (ThreadPool.mk w (some ()) (pend ++ [j])) := by
  intro p job
  exact ⟨rfl, rfl, rfl, fun w pend j => rfl⟩

/-- Claim C2 (evidence of the code bug): on a connection delivering no
request line, handle_connection returns the recoverable missing-request-line
error, but the dispatch-job closure unwraps it into a panic, and the worker
that runs this job terminates without completing it and without surviving
to queue closure — the failure unwinds past the dispatch job boundary. -/
theorem connection_error_panics_past_job_boundary :
    handle_connection [] [] connNoLine = .err .optionUnwrap ∧
    connectionJob [] [] connNoLine = .panicked ∧
    workerRun [connectionJob [] [] connNoLine] =
      { completedJobs := 0, aliveAtClosure := false } := by
  exact ⟨rfl, rfl, rfl⟩

/-- Claim C3: on an encrypted connection where reading the request line,
dispatch and sending the response all succeed, the flush step goes through
the plaintext-stream accessor; an Https connection built by new_ssl has no
plaintext stream, so the handler ends in the accessor's fatal branch
"Connection is not HTTP" and never completes normally. -/
theorem https_flush_hits_plain_accessor :
    ∀ (s : StreamModel) (routes : List Handler) (bl : List String)
      (line raw : String) (resp : Resp),
      s.firstLine = some (some line) →
      (splitWhitespace line).get? 1 = some raw →
      dispatchRoutes routes (sanitizeRoute raw)
        (RequestInfo.new (ConnectionInfo.new_ssl s) (sanitizeRoute raw) bl) = .ok resp →
      s.writeOk = true →
      handle_https_connection routes bl (ConnectionInfo.new_ssl s) =
        .panicked "Connection is not HTTP" := by
  intro s routes bl line raw resp h1 h2 h3 h4
  simp only [handle_https_connection, ConnectionInfo.new_ssl, h1, h2, h3, h4] at h3 ⊢
  simp [sendResp, h3, h4]

/-- Witness for claim C3 at a concrete encrypted connection, empty route
table and empty blacklist. -/
theorem https_flush_hits_plain_accessor_witness :
    handle_https_connection [] [] (ConnectionInfo.new_ssl sslStreamStub) =
      .panicked "Connection is not HTTP" :=
  https_flush_hits_plain_accessor sslStreamStub [] [] "GET / HTTP/1.1" "/"
    (.page (Page.new 404 "Not found")) rfl (by decide) rfl rfl

/-- Counterexample to claim C1: the built-in file handler bound by
add_accessible_files performs no blacklist comparison — on a request whose
resolved canonical path is a blacklist entry it returns the status-200
FileBytes response, not a 403 TextPage. -/
theorem file_handler_serves_blacklisted_file :
    base_file_handler fsSecret reqSecret =
      .ok (.bytes { status := 200, content := [115, 51],
                    file_location := "/srv/secret.txt", file_type := "txt" }) ∧
    "/srv/secret.txt" ∈ reqSecret.blacklisted_paths ∧
    base_file_handler fsSecret reqSecret ≠ .ok (.page (Page.new 403 "Forbidden")) := by
  exact ⟨by decide, by decide, by decide⟩

/-- Claim C1 as amended: the canonical-path blacklist equality check is
performed only by the built-in not-found handler, which answers a 403
Forbidden TextPage whenever the opened file's canonical location is a
blacklist entry; the built-in file handler returns the FileBytes response
whenever the file opens, and its answer is entirely independent of the
blacklist. -/
theorem blacklist_checked_only_in_not_found_handler :
    (∀ (fs : FileSystem) (conn : ConnectionInfo) (route : String)
       (bl : List String) (rel : String) (b : Bytes),
      sliceFromByte1 route = .ok rel →
      Bytes.new fs 200 rel = .ok b →
      b.file_location ∈ bl →
      base_not_found_handler fs (RequestInfo.new conn route bl) =
        .ok (.page (Page.new 403 "Forbidden"))) ∧
    (∀ (fs : FileSystem) (conn : ConnectionInfo) (route : String)
       (bl bl' : List String) (rel : String) (b : Bytes),
      conn.connection_type = .Http →
      sliceFromByte1 route = .ok rel →
      Bytes.new fs 200 rel = .ok b →
      base_file_handler fs (RequestInfo.new conn route bl) = .ok (.bytes b) ∧
      base_file_handler fs (RequestInfo.new conn route bl) =
        base_file_handler fs (RequestInfo.new conn route bl')) := by
  constructor
  · intro fs conn route bl rel b h1 h2 h3
    simp only [base_not_found_handler, RequestInfo.new, h1, h2]
    rw [if_pos h3]
  · intro fs conn route bl bl' rel b hc h1 h2
    constructor
    · simp only [base_file_handler, RequestInfo.new, hc, handle_http_file, h1, h2]
    · simp only [base_file_handler, RequestInfo.new, hc, handle_http_file, h1, h2]

/-- Witness for amended claim C1: on the concrete blacklisted file, the
not-found handler answers 403 Forbidden while the file handler serves the
bytes for any blacklist. -/
theorem blacklist_checked_only_in_not_found_handler_witness :
    base_not_found_handler fsSecret reqSecret = .ok (.page (Page.new 403 "Forbidden")) :=
  (blacklist_checked_only_in_not_found_handler).1 fsSecret connStub "/secret.txt"
    ["/srv/secret.txt"] "secret.txt"
    { status := 200, content := [115, 51],
      file_location := "/srv/secret.txt", file_type := "txt" }
    (by decide) (by decide) (by decide)

/-- Counterexample to claim C4: when the built-in file handler bound by
add_accessible_files cannot open the resolved file it panics (the unwrap),
failing the connection job, instead of yielding a 404 TextPage; the
not-found handler, by contrast, does yield the 404 TextPage there. -/
theorem file_handler_panics_when_file_unopenable :
    handle_http_file fsNothing reqMissing =
      .error ⟨"called Result unwrap on an Err value"⟩ ∧
    base_not_found_handler fsNothing reqMissing =
      .ok (.page (Page.new 404 "custom 404 body")) := by
  exact ⟨by decide, by decide⟩

/-- Claim C4 as amended: on open failure the built-in not-found handler
yields a 404 TextPage (with the body read from 404.html), while the built-in
file handler bound by add_accessible_files panics, failing the connection
job; on success the file handler yields a status-200 FileBytes tagged with
the canonicalized path and its file extension. -/
theorem file_open_failure_handling :
    (∀ (fs : FileSystem) (conn : ConnectionInfo) (route : String)
       (bl : List String) (rel : String) (content : String),
      sliceFromByte1 route = .ok rel →
      Bytes.new fs 200 rel = .error .ioError →
      fs.readToString "404.html" = some content →
      base_not_found_handler fs (RequestInfo.new conn route bl) =
        .ok (.page (Page.new 404 content))) ∧
    (∀ (fs : FileSystem) (path canonical : String) (content : List Nat),
      fs.canonicalize path = some canonical →
      fs.readBytes path = some content →
      Bytes.new fs 200 path =
        .ok { status := 200, content := content, file_location := canonical,
              file_type := (pathExtension canonical).getD "" }) ∧
    (∀ (fs : FileSystem) (conn : ConnectionInfo) (route : String)
       (bl : List String) (rel : String),
      conn.connection_type = .Http →
      sliceFromByte1 route = .ok rel →
      Bytes.new fs 200 rel = .error .ioError →
      base_file_handler fs (RequestInfo.new conn route bl) =
        .error ⟨"called Result unwrap on an Err value"⟩) := by
  refine ⟨?_, ?_, ?_⟩
  · intro fs conn route bl rel content h1 h2 h3
    simp only [base_not_found_handler, RequestInfo.new, h1, h2, h3]
  · intro fs path canonical content h1 h2
    simp only [Bytes.new, h1, h2]
  · intro fs conn route bl rel hc h1 h2
    simp only [base_file_handler, RequestInfo.new, hc, handle_http_file, h1, h2]

/-- Witness for amended claim C4 at the concrete unresolvable request. -/
theorem file_open_failure_handling_witness :
    base_not_found_handler fsNothing reqMissing =
      .ok (.page (Page.new 404 "custom 404 body")) :=
  (file_open_failure_handling).1 fsNothing connStub "/missing.txt" [] "missing.txt"
    "custom 404 body" (by decide) (by decide) (by decide)

/-- Unfolds a successful `add_route`: the route was nonempty and unbound,
and the new binding was appended; nothing else changed. -/
lemma add_route_ok {ws ws' : Webserver} {r : String} {h : HandlerFunction}
    (hs : ws.add_route r h = .ok ws') :
    r ≠ "" ∧ ws.routes.any (fun rh => rh.route == r) = false ∧
      ws'.routes = ws.routes ++ [Handler.new r h] := by
  by_cases h1 : r = ""
  · simp [Webserver.add_route, h1] at hs
  · by_cases h2 : ws.routes.any (fun rh => rh.route == r) = true
    · simp [Webserver.add_route, h1, h2] at hs
    · have h2' : ws.routes.any (fun rh => rh.route == r) = false := by
        simpa using h2
      simp only [Webserver.add_route, if_neg h1, h2', Bool.false_eq_true, if_false,
        Except.ok.injEq] at hs
      exact ⟨h1, h2', by rw [← hs]⟩

/-- Claim C9: add_route fails fatally on the empty route and on an already
bound route — in particular the second of two identical registrations fails
fatally as a duplicate — and a successful registration appends the binding
at the end of the table. -/
theorem add_route_empty_or_duplicate_panics :
    (∀ (ws : Webserver) (h : HandlerFunction),
       ws.add_route "" h = .error ⟨"Route cannot be empty"⟩) ∧
    (∀ (ws ws' : Webserver) (r : String) (h1 h2 : HandlerFunction),
       ws.add_route r h1 = .ok ws' →
       ws'.add_route r h2 = .error ⟨"Route already exists"⟩) ∧
    (∀ (ws ws' : Webserver) (r : String) (h : HandlerFunction),
       ws.add_route r h = .ok ws' →
       ws'.routes = ws.routes ++ [Handler.new r h]) := by
  refine ⟨fun ws h => by simp [Webserver.add_route], ?_, fun ws ws' r h hs => (add_route_ok hs).2.2⟩
  intro ws ws' r h1 h2 hs
  obtain ⟨hne, _, hroutes⟩ := add_route_ok hs
  have hany : ws'.routes.any (fun rh => rh.route == r) = true := by
    rw [hroutes]
    simp [Handler.new]
  simp [Webserver.add_route, hne, hany]

/-- Witness for claim C9: registering "/" twice on the concrete state makes
the second call fail fatally as a duplicate. -/
theorem add_route_duplicate_witness :
    wsStub2.add_route "/" handlerStub = .error ⟨"Route already exists"⟩ :=
  (add_route_empty_or_duplicate_panics).2.1 wsStub wsStub2 "/" handlerStub handlerStub rfl

/-- The scan loop leaves its accumulated response unchanged over bindings
that neither match the route nor carry the reserved token. -/
lemma dispatchLoop_skip (p : String) (req : RequestInfo) :
    ∀ (l : List Handler) (acc : Except RtPanic Resp),
      (∀ h ∈ l, h.route ≠ p ∧ h.route ≠ "404") →
      dispatchLoop p req l acc = acc := by
  intro l
  induction l with
  | nil => intro acc _; rfl
  | cons h rest ih =>
    intro acc hall
    have h1 := hall h (by simp)
    simp only [dispatchLoop]
    rw [if_neg h1.1, if_neg h1.2]
    exact ih acc (fun h' hm => hall h' (by simp [hm]))

/-- The scan loop answers the first exact match's handler, provided no
earlier binding matches and every earlier reserved binding's handler
returns normally on this request. -/
lemma dispatchLoop_first_match (p : String) (req : RequestInfo) :
    ∀ (pre : List Handler) (h : Handler) (post : List Handler) (acc : Except RtPanic Resp),
      (∀ h' ∈ pre, h'.route ≠ p) →
      (∀ h' ∈ pre, h'.route = "404" → ∃ r, h'.handler req = .ok r) →
      h.route = p →
      dispatchLoop p req (pre ++ h :: post) acc = h.handler req := by
  intro pre
  induction pre with
  | nil =>
    intro h post acc _ _ hm
    simp only [List.nil_append, dispatchLoop]
    rw [if_pos hm]
  | cons h0 pre ih =>
    intro h post acc hnp h404 hm
    have hn0 : h0.route ≠ p := hnp h0 (by simp)
    simp only [List.cons_append, dispatchLoop]
    rw [if_neg hn0]
    by_cases h04 : h0.route = "404"
    · obtain ⟨r, hr⟩ := h404 h0 (by simp) h04
      rw [if_pos h04, hr]
      exact ih h post (.ok r) (fun h' hm' => hnp h' (by simp [hm']))
        (fun h' hm' => h404 h' (by simp [hm'])) hm
    · rw [if_neg h04]
      exact ih h post acc (fun h' hm' => hnp h' (by simp [hm']))
        (fun h' hm' => h404 h' (by simp [hm'])) hm

/-- With no exact match anywhere and a single reserved binding, the scan
loop answers that reserved binding's handler invocation. -/
lemma dispatchLoop_fallback (p : String) (req : RequestInfo) :
    ∀ (pre : List Handler) (h404 : Handler) (post : List Handler) (acc : Except RtPanic Resp),
      h404.route = "404" →
      (∀ h' ∈ pre ++ post, h'.route ≠ "404") →
      (∀ h' ∈ pre ++ h404 :: post, h'.route ≠ p) →
      dispatchLoop p req (pre ++ h404 :: post) acc = h404.handler req := by
  intro pre
  induction pre with
  | nil =>
    intro h404 post acc h4 hno hnp
    have hnp4 : h404.route ≠ p := hnp h404 (by simp)
    simp only [List.nil_append] at hno hnp ⊢
    simp only [dispatchLoop]
    rw [if_neg hnp4, if_pos h4]
    cases hcase : h404.handler req with
    | ok r =>
      simp only []
      exact dispatchLoop_skip p req post (.ok r)
        (fun h' hm => ⟨hnp h' (by simp [hm]), hno h' hm⟩)
    | error e => rfl
  | cons h0 pre ih =>
    intro h404 post acc h4 hno hnp
    have hn0p : h0.route ≠ p := hnp h0 (by simp)
    have hn04 : h0.route ≠ "404" := hno h0 (by simp)
    simp only [List.cons_append, dispatchLoop]
    rw [if_neg hn0p, if_neg hn04]
    exact ih h404 post acc h4 (fun h' hm => hno h' (by simp [hm]))
      (fun h' hm => hnp h' (by simp [hm]))

/-- Claim C6: dispatch scans bindings in registration order; an exact match
answers that binding's handler and stops the scan (provided the reserved
bindings invoked on the way return normally); with no exact match the
answer is the unique reserved binding's handler invocation; and after
set_404_callback replaces the reserved binding, the no-match answer is the
replacement handler's output. -/
theorem dispatch_order_and_fallback (p : String) (req : RequestInfo) :
    (∀ (pre : List Handler) (h : Handler) (post : List Handler),
       (∀ h' ∈ pre, h'.route ≠ p) →
       (∀ h' ∈ pre, h'.route = "404" → ∃ r, h'.handler req = .ok r) →
       h.route = p →
       dispatchRoutes (pre ++ h :: post) p req = h.handler req) ∧
    (∀ (pre : List Handler) (h404 : Handler) (post : List Handler),
       h404.route = "404" →
       (∀ h' ∈ pre ++ post, h'.route ≠ "404") →
       (∀ h' ∈ pre ++ h404 :: post, h'.route ≠ p) →
       dispatchRoutes (pre ++ h404 :: post) p req = h404.handler req) ∧
    (∀ (ws ws' : Webserver) (f : HandlerFunction),
       ws.set_404_callback f = .ok ws' →
       (∀ h' ∈ ws.routes.tail, h'.route ≠ "404") →
       (∀ h' ∈ ws'.routes, h'.route ≠ p) →
       dispatchRoutes ws'.routes p req = f req) := by
  refine ⟨?_, ?_, ?_⟩
  · intro pre h post hnp h404 hm
    exact dispatchLoop_first_match p req pre h post _ hnp h404 hm
  · intro pre h404 post h4 hno hnp
    exact dispatchLoop_fallback p req pre h404 post _ h4 hno hnp
  · intro ws ws' f hset htail hnm
    cases hr : ws.routes with
    | nil => simp [Webserver.set_404_callback, hr] at hset
    | cons r0 rest =>
      simp only [Webserver.set_404_callback, hr, Except.ok.injEq] at hset
      rw [← hset] at hnm
      have htail' : ∀ h' ∈ rest, h'.route ≠ "404" := by
        intro h' hm
        exact htail h' (by rw [hr]; exact hm)
      rw [← hset]
      exact dispatchLoop_fallback p req [] (Handler.new "404" f) rest _ rfl
        (by simpa using htail') (by simpa using hnm)

/-- Witness for claim C6: on the concrete two-binding table the exact match
for "/x" wins even though the reserved binding precedes it. -/
theorem dispatch_order_witness :
    dispatchRoutes [h404Stub, hRouteX] "/x" reqRouteX = .ok (.page (Page.new 200 "hi")) := by
  have h := (dispatch_order_and_fallback "/x" reqRouteX).1 [h404Stub] hRouteX []
    (by intro h' hm; rw [List.mem_singleton] at hm; subst hm; decide)
    (by intro h' hm _; rw [List.mem_singleton] at hm; subst hm
        exact ⟨.page (Page.new 404 "nf"), rfl⟩)
    rfl
  exact h

/-- Unpacks the reserved-binding invariant: a head binding routed "404" and
a tail free of that token. -/
lemma inv404_cases {ws : Webserver} (hi : inv404 ws = true) :
    ∃ h0 t, ws.routes = h0 :: t ∧ h0.route = "404" ∧ ∀ h' ∈ t, h'.route ≠ "404" := by
  cases hr : ws.routes with
  | nil => simp [inv404, hr] at hi
  | cons h0 t =>
    simp only [inv404, hr, Bool.and_eq_true, beq_iff_eq, List.all_eq_true,
      bne_iff_ne, ne_eq] at hi
    exact ⟨h0, t, rfl, hi.1, hi.2⟩

/-- Builds the reserved-binding invariant from its parts. -/
lemma inv404_intro {ws : Webserver} {h0 : Handler} {t : List Handler}
    (hr : ws.routes = h0 :: t) (h4 : h0.route = "404")
    (ht : ∀ h' ∈ t, h'.route ≠ "404") : inv404 ws = true := by
  simp only [inv404, hr, Bool.and_eq_true, beq_iff_eq, List.all_eq_true,
    bne_iff_ne, ne_eq]
  exact ⟨h4, ht⟩

/-- A successful add_route preserves the reserved-binding invariant. -/
lemma inv404_add_route {ws ws' : Webserver} {r : String} {h : HandlerFunction}
    (hi : inv404 ws = true) (hs : ws.add_route r h = .ok ws') : inv404 ws' = true := by
  obtain ⟨h0, t, hr, h4, ht⟩ := inv404_cases hi
  obtain ⟨hne, hany, hroutes⟩ := add_route_ok hs
  have hr404 : r ≠ "404" := by
    intro hcontra
    rw [hr] at hany
    simp [List.any_cons, h4, hcontra] at hany
  apply inv404_intro (show ws'.routes = h0 :: (t ++ [Handler.new r h]) by
    rw [hroutes, hr]; rfl) h4
  intro h' hm
  rcases List.mem_append.1 hm with hm | hm
  · exact ht h' hm
  · rw [List.mem_singleton] at hm
    subst hm
    simpa [Handler.new] using hr404

/-- A successful set_404_callback preserves the reserved-binding
invariant. -/
lemma inv404_set404 {ws ws' : Webserver} {f : HandlerFunction}
    (hi : inv404 ws = true) (hs : ws.set_404_callback f = .ok ws') : inv404 ws' = true := by
  obtain ⟨h0, t, hr, _, ht⟩ := inv404_cases hi
  simp only [Webserver.set_404_callback, hr, Except.ok.injEq] at hs
  exact inv404_intro (show ws'.routes = Handler.new "404" f :: t by rw [← hs]) rfl ht

/-- Every surviving state of add_accessible_files preserves the
reserved-binding invariant. -/
lemma inv404_add_files (fs : FileSystem) :
    ∀ (paths : List String) (ws ws' : Webserver),
      inv404 ws = true →
      (ws.add_accessible_files fs paths).state = some ws' →
      inv404 ws' = true := by
  intro paths
  induction paths with
  | nil =>
    intro ws ws' hi hs
    simp only [Webserver.add_accessible_files, OpResult.state, Option.some.injEq] at hs
    rw [← hs]; exact hi
  | cons p rest ih =>
    intro ws ws' hi hs
    cases hc : fs.canonicalize p with
    | none =>
      simp only [Webserver.add_accessible_files, hc, OpResult.state,
        Option.some.injEq] at hs
      rw [← hs]; exact hi
    | some cp =>
      cases ha : ws.add_route ("/" ++ p) (base_file_handler fs) with
      | error pan =>
        simp [Webserver.add_accessible_files, hc, ha, OpResult.state] at hs
      | ok ws1 =>
        simp only [Webserver.add_accessible_files, hc, ha] at hs
        exact ih ws1 ws' (inv404_add_route hi ha) hs

/-- Every surviving state of one registration operation preserves the
reserved-binding invariant. -/
lemma inv404_applyOp (fs : FileSystem) {ws ws' : Webserver} (op : ServerOp)
    (hi : inv404 ws = true) (hs : (ws.applyOp fs op).state = some ws') :
    inv404 ws' = true := by
  cases op with
  | addRoute r h =>
    cases ha : ws.add_route r h with
    | error p => simp [Webserver.applyOp, ha, OpResult.state] at hs
    | ok ws1 =>
      simp only [Webserver.applyOp, ha, OpResult.state, Option.some.injEq] at hs
      rw [← hs]; exact inv404_add_route hi ha
  | addFiles ps =>
    simp only [Webserver.applyOp] at hs
    exact inv404_add_files fs ps ws ws' hi hs
  | set404 f =>
    cases ha : ws.set_404_callback f with
    | error p => simp [Webserver.applyOp, ha, OpResult.state] at hs
    | ok ws1 =>
      simp only [Webserver.applyOp, ha, OpResult.state, Option.some.injEq] at hs
      rw [← hs]; exact inv404_set404 hi ha

/-- Every surviving state of a sequence of registration operations
preserves the reserved-binding invariant. -/
lemma inv404_runOps (fs : FileSystem) :
    ∀ (ops : List ServerOp) (ws ws' : Webserver),
      inv404 ws = true →
      (Webserver.runOps fs ws ops).state = some ws' →
      inv404 ws' = true := by
  intro ops
  induction ops with
  | nil =>
    intro ws ws' hi hs
    simp only [Webserver.runOps, OpResult.state, Option.some.injEq] at hs
    rw [← hs]; exact hi
  | cons op rest ih =>
    intro ws ws' hi hs
    cases ha : ws.applyOp fs op with
    | ok ws1 =>
      simp only [Webserver.runOps, ha] at hs
      exact ih ws1 ws' (inv404_applyOp fs op hi (by rw [ha]; rfl)) hs
    | ioError ws1 =>
      simp only [Webserver.runOps, ha] at hs
      exact ih ws1 ws' (inv404_applyOp fs op hi (by rw [ha]; rfl)) hs
    | panicked m => simp [Webserver.runOps, ha, OpResult.state] at hs

/-- Claim C7: from construction on, through every surviving sequence of
add_route, add_accessible_files and set_404_callback operations, the route
table holds exactly one reserved "404" binding, as its head;
set_404_callback replaces exactly that binding; and re-binding "404"
through add_route always fails fatally as a duplicate. -/
theorem reserved_not_found_binding_invariant :
    (∀ (fs : FileSystem) (n : Nat) (bl : List String) (ws0 : Webserver)
       (ops : List ServerOp) (ws' : Webserver),
      Webserver.new fs n bl = .ok ws0 →
      (Webserver.runOps fs ws0 ops).state = some ws' →
      inv404 ws' = true) ∧
    (∀ (ws ws' : Webserver) (f : HandlerFunction),
      ws.set_404_callback f = .ok ws' →
      ws'.routes.head? = some (Handler.new "404" f) ∧
        ws'.routes.tail = ws.routes.tail) ∧
    (∀ (ws : Webserver) (h : HandlerFunction),
      inv404 ws = true →
      ws.add_route "404" h = .error ⟨"Route already exists"⟩) := by
  refine ⟨?_, ?_, ?_⟩
  · intro fs n bl ws0 ops ws' hnew hrun
    have hi0 : inv404 ws0 = true := by
      cases hp : ThreadPool.new n with
      | error p => simp [Webserver.new, hp] at hnew
      | ok pool =>
        simp only [Webserver.new, hp, Except.ok.injEq] at hnew
        rw [← hnew]
        rfl
    exact inv404_runOps fs ops ws0 ws' hi0 hrun
  · intro ws ws' f hset
    cases hr : ws.routes with
    | nil => simp [Webserver.set_404_callback, hr] at hset
    | cons r0 rest =>
      simp only [Webserver.set_404_callback, hr, Except.ok.injEq] at hset
      subst hset
      exact ⟨rfl, rfl⟩
  · intro ws h hi
    obtain ⟨h0, t, hr, h4, _⟩ := inv404_cases hi
    have hany : ws.routes.any (fun rh => rh.route == "404") = true := by
      rw [hr]; simp [h4]
    simp [Webserver.add_route, hany]

/-- Witness for claim C7 on the concrete operation sequence. -/
theorem reserved_binding_invariant_witness : inv404 wsFinal = true :=
  (reserved_not_found_binding_invariant).1 fsAtxt 2 [] wsInit opsStub wsFinal rfl rfl

/-- Equation for the scanning step of `replaceDotDot` on a list of at least
four characters. -/
lemma replaceDotDot_four (c d e f : Char) (rest : List Char) :
    replaceDotDot (c :: d :: e :: f :: rest) =
      if c = '/' ∧ d = '.' ∧ e = '.' ∧ f = '/' then '/' :: replaceDotDot rest
      else c :: replaceDotDot (d :: e :: f :: rest) := rfl

/-- Equation for `containsDotDot` on a list of at least four characters. -/
lemma containsDotDot_four (c d e f : Char) (rest : List Char) :
    containsDotDot (c :: d :: e :: f :: rest) =
      (decide (c = '/' ∧ d = '.' ∧ e = '.' ∧ f = '/') ||
        containsDotDot (d :: e :: f :: rest)) := rfl

/-- A list without any `/../` occurrence passes through `replaceDotDot`
unchanged (fuelled induction on the length). -/
lemma replaceDotDot_id_aux :
    ∀ (n : Nat) (l : List Char), l.length ≤ n →
      containsDotDot l = false → replaceDotDot l = l := by
  intro n
  induction n with
  | zero =>
    intro l hl _
    cases l with
    | nil => rfl
    | cons c r => simp at hl
  | succ n ih =>
    intro l hl hc
    rcases l with _ | ⟨c, _ | ⟨d, _ | ⟨e, _ | ⟨f, rest⟩⟩⟩⟩
    · rfl
    · rfl
    · rfl
    · rfl
    · rw [containsDotDot_four] at hc
      simp only [Bool.or_eq_false_iff, decide_eq_false_iff_not] at hc
      rw [replaceDotDot_four, if_neg hc.1]
      have hlen : (d :: e :: f :: rest).length ≤ n := by
        simp only [List.length_cons] at hl ⊢
        omega
      rw [ih (d :: e :: f :: rest) hlen hc.2]

/-- Leftmost-replacement behaviour of the single scan: an occurrence of
`/../` preceded by a prefix containing no occurrence (and not ending in the
three characters `/..`, which would complete an earlier occurrence) is
replaced by `/`, and scanning continues after it (fuelled induction on the
prefix length). -/
lemma replaceDotDot_leftmost_aux :
    ∀ (n : Nat) (a : List Char), a.length ≤ n →
      ∀ b : List Char, containsDotDot a = false →
        ¬ (['/', '.', '.'] <:+ a) →
        replaceDotDot (a ++ '/' :: '.' :: '.' :: '/' :: b) =
          a ++ '/' :: replaceDotDot b := by
  intro n
  induction n with
  | zero =>
    intro a ha b _ _
    cases a with
    | nil =>
      rw [List.nil_append, replaceDotDot_four, if_pos ⟨rfl, rfl, rfl, rfl⟩]
      rfl
    | cons c r => simp at ha
  | succ n ih =>
    intro a ha b hc hsuf
    rcases a with _ | ⟨c, _ | ⟨d, _ | ⟨e, _ | ⟨f, rest⟩⟩⟩⟩
    · rw [List.nil_append, replaceDotDot_four, if_pos ⟨rfl, rfl, rfl, rfl⟩]
      rfl
    · show replaceDotDot (c :: '/' :: '.' :: '.' :: '/' :: b) = _
      rw [replaceDotDot_four, if_neg (fun h => absurd h.2.1 (by decide))]
      rw [replaceDotDot_four, if_pos ⟨rfl, rfl, rfl, rfl⟩]
      rfl
    · show replaceDotDot (c :: d :: '/' :: '.' :: '.' :: '/' :: b) = _
      rw [replaceDotDot_four, if_neg (fun h => absurd h.2.2.1 (by decide))]
      rw [replaceDotDot_four, if_neg (fun h => absurd h.2.1 (by decide))]
      rw [replaceDotDot_four, if_pos ⟨rfl, rfl, rfl, rfl⟩]
      rfl
    · show replaceDotDot (c :: d :: e :: '/' :: '.' :: '.' :: '/' :: b) = _
      rw [replaceDotDot_four, if_neg ?hne]
      case hne =>
        intro h
        obtain ⟨h1, h2, h3, _⟩ := h
        subst h1; subst h2; subst h3
        exact hsuf (List.suffix_refl _)
      rw [replaceDotDot_four, if_neg (fun h => absurd h.2.2.1 (by decide))]
      rw [replaceDotDot_four, if_neg (fun h => absurd h.2.1 (by decide))]
      rw [replaceDotDot_four, if_pos ⟨rfl, rfl, rfl, rfl⟩]
      rfl
    · show replaceDotDot (c :: d :: e :: f :: (rest ++ '/' :: '.' :: '.' :: '/' :: b)) = _
      rw [containsDotDot_four] at hc
      simp only [Bool.or_eq_false_iff, decide_eq_false_iff_not] at hc
      rw [replaceDotDot_four, if_neg hc.1]
      have hlen : (d :: e :: f :: rest).length ≤ n := by
        simp only [List.length_cons] at ha ⊢
        omega
      have hsuf' : ¬ (['/', '.', '.'] <:+ d :: e :: f :: rest) := by
        intro hsa
        exact hsuf (hsa.trans (List.suffix_cons c (d :: e :: f :: rest)))
      exact congrArg (List.cons c) (ih (d :: e :: f :: rest) hlen b hc.2 hsuf')

/-- Counterexample to claim C5: on the input `/../../`, whose two literal
`/../` occurrences overlap, the sanitized output is `/../` — it still
contains a literal `/../` segment, so not every literal `/../` substring of
the decoded input ends up replaced by `/`. -/
theorem sanitize_misses_overlapping_traversal :
    sanitizeRoute "/../../" = "/../" ∧
    containsDotDot ("/../../".data) = true ∧
    containsDotDot ((sanitizeRoute "/../../").data) = true := by
  exact ⟨by decide, by decide, by decide⟩

/-- Claim C5 as amended: sanitization percent-decodes, then replaces the
`/../` occurrences of the decoded token in one left-to-right
non-overlapping pass, then strips the query; a token without any occurrence
passes through the replacement unchanged, and an occurrence whose prefix
neither contains an occurrence nor ends in `/..` is replaced by `/` with
scanning resuming after it.  Occurrences overlapping an earlier one (or
created by a replacement) survive, as `/../../` shows. -/
theorem sanitize_single_pass_replacement :
    (∀ l : List Char, containsDotDot l = false → replaceDotDot l = l) ∧
    (∀ a b : List Char, containsDotDot a = false →
       ¬ (['/', '.', '.'] <:+ a) →
       replaceDotDot (a ++ '/' :: '.' :: '.' :: '/' :: b) =
         a ++ '/' :: replaceDotDot b) ∧
    (∀ s : String,
       sanitizeRoute s = ⟨stripQuery (replaceDotDot (percentDecode s.data))⟩) := by
  refine ⟨?_, ?_, fun s => rfl⟩
  · intro l hc
    exact replaceDotDot_id_aux l.length l le_rfl hc
  · intro a b hc hsuf
    exact replaceDotDot_leftmost_aux a.length a le_rfl b hc hsuf

/-- Witness for amended claim C5: the single occurrence in `/a/../b` is
replaced, yielding `/a/b`. -/
theorem sanitize_single_pass_replacement_witness :
    replaceDotDot ("/a".data ++ '/' :: '.' :: '.' :: '/' :: "b".data) =
      "/a".data ++ '/' :: replaceDotDot "b".data :=
  (sanitize_single_pass_replacement).2.1 "/a".data "b".data (by decide) (by decide)
